import Mathlib

/-!
Shallow embedding of `analyze_data.py`: a script that lists the entries of a
fixed directory `data`, and for each entry prints a banner/header block, then
tries to open the entry as a spreadsheet workbook, prints its sheet names,
loads the first sheet into a tabular frame and prints its size, column list,
a preview of the first 5 rows and the per-column inferred types; any exception
during this per-file work is caught and printed as a single error line, after
which the loop continues.  After the loop a closing banner and a completion
message are printed.

The filesystem and the spreadsheet library are modelled by an environment
`FS` giving the result of the directory listing and, per path, the result of
opening that path as a workbook (an ordered list of sheets, each a raw grid
of cell texts whose first row is the header row).  Output is modelled as a
list of print events (`OutLine`), each of which renders to the text line the
script prints; a run either fails fatally with an uncaught error (the
directory listing failed) or succeeds with the full list of printed lines.
-/

namespace AnalyzeData

/-- A sheet of a workbook: a sheet name and the raw grid of cell texts; the
first row of the grid is the header row, the remaining rows are data rows. -/
structure Sheet where
  name : String
  cells : List (List String)
deriving Repr, DecidableEq

/-- A workbook is the ordered list of its sheets. -/
abbrev Workbook := List Sheet

/-- The tabular frame produced by loading one sheet (`pd.read_excel`):
the ordered column names and the data rows (header row excluded). -/
structure Frame where
  cols : List String
  rows : List (List String)
deriving Repr, DecidableEq

/-- The environment of one run: the result of listing the data directory
(`os.listdir`), and per path the result of opening that path as a spreadsheet
workbook (`pd.ExcelFile` / `pd.read_excel`); `Except.error` carries the
message of the exception the library raises. -/
structure FS where
  listing : Except String (List String)
  file : String → Except String Workbook

/-- The hard-coded base directory of the script. -/
def data_dir : String := "data"

/-- `os.path.join` for the one use the script makes of it. -/
def os_path_join (d f : String) : String := d ++ "/" ++ f

/-- Is a cell text a rendering of an integer (all digits, nonempty)? -/
def isIntText (s : String) : Bool := s.length != 0 && s.all Char.isDigit

/-- Inferred primitive type of one column's values, in the manner of the
loading library: a nonempty all-integer column is `int64`, else `object`. -/
def inferDtype (vals : List String) : String :=
  if vals.length != 0 && vals.all isIntText then "int64" else "object"

/-- The values of column `j` of a frame (missing cells read as empty). -/
def colValues (df : Frame) (j : Nat) : List String :=
  df.rows.map (fun r => r.getD j "")

/-- `df.dtypes`: one inferred type per column, in column order. -/
def frameDtypes (df : Frame) : List String :=
  (List.range df.cols.length).map (fun j => inferDtype (colValues df j))

/-- The error message raised when a workbook has no sheet at index 0. -/
def sheet0ErrMsg : String := "Worksheet index 0 is invalid, 0 worksheets found"

/-- `pd.read_excel(filepath, sheet_name=0)` on an opened workbook: loads the
first sheet into a frame (header row becomes the column names, remaining rows
the data rows), and raises if the workbook has no sheets. -/
def read_excel0 (wb : Workbook) : Except String Frame :=
  match wb with
  | [] => Except.error sheet0ErrMsg
  | s :: _ => Except.ok { cols := s.cells.headD [], rows := s.cells.tail }

/-- One print event of the script; each renders to one output line. -/
inductive OutLine where
  | blank
  | bannerLine
  | fileHeader (idx : Nat) (name : String)
  | sheets (names : List String)
  | size (nrows ncols : Nat)
  | columnsHeader
  | colItem (name : String)
  | previewHeader
  | previewCols (names : List String)
  | previewRow (cells : List String)
  | dtypesHeader
  | dtypeItem (name ty : String)
  | errorLine (msg : String)
  | complete
deriving Repr, DecidableEq

/-- Render a row of cells the way the preview table renders it. -/
def renderCells (cs : List String) : String := String.intercalate "  " cs

/-- Render one print event to the text line the script prints. -/
def renderLine : OutLine → String
  | .blank => ""
  | .bannerLine => String.mk (List.replicate 60 '=')
  | .fileHeader i n => "📄 FILE " ++ toString i ++ ": " ++ n
  | .sheets ns => "📊 Sheets: [" ++ String.intercalate ", " ns ++ "]"
  | .size r c => "📏 Size: " ++ toString r ++ " rows x " ++ toString c ++ " columns"
  | .columnsHeader => "📋 Columns:"
  | .colItem n => "   - " ++ n
  | .previewHeader => "📝 First 5 rows:"
  | .previewCols ns => renderCells ns
  | .previewRow cs => renderCells cs
  | .dtypesHeader => "📈 Data Types:"
  | .dtypeItem n t => n ++ "    " ++ t
  | .errorLine m => "❌ Error: " ++ m
  | .complete => "✅ Analysis Complete!"

/-- Render a whole run's print events to the text written to stdout. -/
def renderOut (ls : List OutLine) : String :=
  String.intercalate "\n" (ls.map renderLine)

/-- The lines printed after a successful load of the first sheet into `df`:
the size line, the column list, the 5-row preview and the dtype listing. -/
def successLines (df : Frame) : List OutLine :=
  [.size df.rows.length df.cols.length, .blank, .columnsHeader]
  ++ df.cols.map OutLine.colItem
  ++ [.blank, .previewHeader, .previewCols df.cols]
  ++ (df.rows.take 5).map OutLine.previewRow
  ++ [.blank, .dtypesHeader]
  ++ (df.cols.zip (frameDtypes df)).map (fun p => OutLine.dtypeItem p.1 p.2)

/-- The body of the `try` block for one path, with the `except` handler: open
the workbook (printing the sheet names on success), load the first sheet, and
print the success report; any error is printed as one error line and the
block ends there. -/
def tryBlock (fs : FS) (path : String) : List OutLine :=
  match fs.file path with
  | .error e => [.errorLine e]
  | .ok wb =>
    match read_excel0 wb with
    | .error e => [.sheets (wb.map Sheet.name), .errorLine e]
    | .ok df => .sheets (wb.map Sheet.name) :: successLines df

/-- The whole block printed for entry `f` at 0-based loop index `i`: blank
line, banner, `FILE i+1: f` header, banner, then the guarded per-file work. -/
def fileBlock (fs : FS) (i : Nat) (f : String) : List OutLine :=
  [.blank, .bannerLine, .fileHeader (i + 1) f, .bannerLine]
  ++ tryBlock fs (os_path_join data_dir f)

/-- The `for i, f in enumerate(files)` loop, started at index `i`. -/
def reportLoop (fs : FS) (i : Nat) : List String → List OutLine
  | [] => []
  | f :: rest => fileBlock fs i f ++ reportLoop fs (i + 1) rest

/-- Everything printed when the directory listing returned `files`: every
file's block in listing order, then the closing banner and completion line. -/
def runOutput (fs : FS) (files : List String) : List OutLine :=
  reportLoop fs 0 files ++ [.blank, .bannerLine, .complete]

/-- The whole script: list the directory (an error there is uncaught and
fatal, producing no output), then print every file's block and the closing
lines; per-file errors are caught inside `tryBlock`, so this succeeds. -/
def analyze_data (fs : FS) : Except String (List OutLine) :=
  match fs.listing with
  | .error e => Except.error e
  | .ok files => Except.ok (runOutput fs files)

/-- Did the run finish normally (exit code 0)? -/
def runSucceeds (r : Except String (List OutLine)) : Bool :=
  match r with
  | .ok _ => true
  | .error _ => false

/-- The error message the per-file processing of `path` ends with, if any:
`none` means the success report is printed. -/
def processOutcome (fs : FS) (path : String) : Option String :=
  match fs.file path with
  | .error e => some e
  | .ok [] => some sheet0ErrMsg
  | .ok (_ :: _) => none

/- Line-classification predicates used to state the properties. -/

/-- Is this print event an error line? -/
def isErrL : OutLine → Bool
  | .errorLine _ => true
  | _ => false

/-- Is this print event a size line? -/
def isSizeL : OutLine → Bool
  | .size _ _ => true
  | _ => false

/-- Is this print event a column-list item line? -/
def isColItemL : OutLine → Bool
  | .colItem _ => true
  | _ => false

/-- Is this print event a preview data-row line? -/
def isPreviewRowL : OutLine → Bool
  | .previewRow _ => true
  | _ => false

/-- Is this print event a `FILE n: name` header line? -/
def isFileHeaderL : OutLine → Bool
  | .fileHeader _ _ => true
  | _ => false

/-- Is this print event a dtype-list item line? -/
def isDtypeItemL : OutLine → Bool
  | .dtypeItem _ _ => true
  | _ => false

/-- The cells carried by a preview data-row line. -/
def previewCellsOf : OutLine → List String
  | .previewRow cs => cs
  | _ => []

/-- The column name carried by a column-list item line. -/
def colNameOf : OutLine → String
  | .colItem n => n
  | _ => ""

/-- The column name carried by a dtype-list item line. -/
def dtypeColOf : OutLine → String
  | .dtypeItem n _ => n
  | _ => ""

/- Concrete environments used to witness the theorems. -/

/-- A concrete sheet: header `id, name` and six data rows. -/
def sheetEx : Sheet :=
  { name := "Sheet1"
    cells := [["id", "name"], ["1", "a"], ["2", "b"], ["3", "c"],
              ["4", "d"], ["5", "e"], ["6", "f"]] }

/-- A concrete environment: one readable workbook, one zero-sheet workbook,
one unopenable file. -/
def fsEx : FS :=
  { listing := Except.ok ["good.xlsx", "bad.xlsx", "empty.xlsx"]
    file := fun p =>
      if p = "data/good.xlsx" then Except.ok [sheetEx]
      else if p = "data/empty.xlsx" then Except.ok []
      else Except.error "cannot open file" }

/-- A concrete environment whose directory listing itself fails. -/
def fsFatal : FS :=
  { listing := Except.error "No such file or directory: data"
    file := fun _ => Except.error "unused" }

/-- A concrete environment whose directory listing is empty. -/
def fsEmptyDir : FS :=
  { listing := Except.ok []
    file := fun _ => Except.error "unused" }

/- Helper lemmas. -/

/-- The block of the entry at position `k` of the listing sits inside the
loop's output, at loop index `i + k`. -/
lemma reportLoop_decomp (fs : FS) :
    ∀ (files : List String) (k i : Nat) (f : String), files[k]? = some f →
      ∃ s t, reportLoop fs i files = s ++ fileBlock fs (i + k) f ++ t := by
  intro files
  induction files with
  | nil => intro k i f hf; simp at hf
  | cons g rest ih =>
    intro k i f hf
    cases k with
    | zero =>
      refine ⟨[], reportLoop fs (i + 1) rest, ?_⟩
      simp at hf
      subst hf
      simp [reportLoop]
    | succ k =>
      simp at hf
      obtain ⟨s, t, hst⟩ := ih k (i + 1) f (by simpa using hf)
      refine ⟨fileBlock fs i g ++ s, t, ?_⟩
      have : i + 1 + k = i + (k + 1) := by omega
      simp [reportLoop, hst, this]

/-- The block of the entry at position `k` of the listing sits inside the
whole run's output. -/
lemma runOutput_decomp (fs : FS) (files : List String) (k : Nat) (f : String)
    (hf : files[k]? = some f) :
    ∃ s t, runOutput fs files = s ++ fileBlock fs k f ++ t := by
  obtain ⟨s, t, hst⟩ := reportLoop_decomp fs files k 0 f hf
  exact ⟨s, t ++ [.blank, .bannerLine, .complete], by
    simp [runOutput, hst]⟩

/-- A `tryBlock` never contains a `FILE n: name` header line. -/
lemma tryBlock_countP_fileHeader (fs : FS) (path : String) :
    (tryBlock fs path).countP isFileHeaderL = 0 := by
  unfold tryBlock
  cases fs.file path with
  | error e => simp [isFileHeaderL]
  | ok wb =>
    cases wb with
    | nil => simp [read_excel0, isFileHeaderL]
    | cons s rest =>
      simp only [read_excel0, successLines, List.countP_append, List.countP_map,
        List.countP_cons, List.countP_nil, Function.comp]
      simp [isFileHeaderL, List.countP_eq_zero]

/-- Each entry's block contains exactly one `FILE n: name` header line. -/
lemma fileBlock_countP_fileHeader (fs : FS) (i : Nat) (f : String) :
    (fileBlock fs i f).countP isFileHeaderL = 1 := by
  simp [fileBlock, List.countP_append, List.countP_cons, isFileHeaderL,
    tryBlock_countP_fileHeader]

/-- The loop prints exactly one `FILE n: name` header line per listed entry. -/
lemma reportLoop_countP_fileHeader (fs : FS) :
    ∀ (files : List String) (i : Nat),
      (reportLoop fs i files).countP isFileHeaderL = files.length := by
  intro files
  induction files with
  | nil => intro i; simp [reportLoop]
  | cons g rest ih =>
    intro i
    simp [reportLoop, List.countP_append, fileBlock_countP_fileHeader, ih]
    omega

/-- `df.dtypes` has exactly one entry per column. -/
lemma frameDtypes_length (df : Frame) :
    (frameDtypes df).length = df.cols.length := by
  simp [frameDtypes]

/-- When per-file processing fails with message `e`, the guarded block is the
error line alone (open failed) or the sheets line of the empty workbook
followed by the error line (load of sheet 0 failed). -/
lemma tryBlock_of_processError (fs : FS) (path e : String)
    (he : processOutcome fs path = some e) :
    tryBlock fs path = [.errorLine e] ∨
      tryBlock fs path = [.sheets [], .errorLine e] := by
  unfold processOutcome at he
  unfold tryBlock
  cases hff : fs.file path with
  | error e2 =>
    rw [hff] at he
    simp only [Option.some.injEq] at he
    subst he
    left
    rfl
  | ok wb =>
    cases wb with
    | nil =>
      rw [hff] at he
      simp only [Option.some.injEq] at he
      subst he
      right
      rfl
    | cons s rest =>
      rw [hff] at he
      simp at he

/-- When the workbook opens and its first sheet loads into `df`, the guarded
block is the sheets line followed by the success report derived from `df`. -/
lemma tryBlock_of_ok (fs : FS) (path : String) (wb : Workbook) (df : Frame)
    (hw : fs.file path = Except.ok wb) (hd : read_excel0 wb = Except.ok df) :
    tryBlock fs path = OutLine.sheets (wb.map Sheet.name) :: successLines df := by
  unfold tryBlock
  rw [hw]
  simp [hd]

/-- Filtering a mapped list with a predicate true on every image keeps it. -/
lemma filter_map_of_true {α : Type} (p : OutLine → Bool) (f : α → OutLine)
    (l : List α) (h : ∀ a, p (f a) = true) : (l.map f).filter p = l.map f := by
  induction l with
  | nil => rfl
  | cons a l ih => simp [List.filter_cons, h, ih]

/-- Filtering a mapped list with a predicate false on every image drops it. -/
lemma filter_map_of_false {α : Type} (p : OutLine → Bool) (f : α → OutLine)
    (l : List α) (h : ∀ a, p (f a) = false) : (l.map f).filter p = [] := by
  induction l with
  | nil => rfl
  | cons a l ih => simp [List.filter_cons, h, ih]

/-- The column-item lines of a success report are exactly the frame's
columns, in order. -/
lemma successLines_filter_colItem (df : Frame) :
    (successLines df).filter isColItemL = df.cols.map OutLine.colItem := by
  simp only [successLines, List.filter_append]
  rw [filter_map_of_true _ _ _ (fun a => rfl),
    filter_map_of_false _ OutLine.previewRow _ (fun a => rfl),
    filter_map_of_false _ _ _ (fun a => rfl)]
  simp [isColItemL]

/-- The preview data-row lines of a success report are exactly the first
five data rows of the frame, in order. -/
lemma successLines_filter_previewRow (df : Frame) :
    (successLines df).filter isPreviewRowL =
      (df.rows.take 5).map OutLine.previewRow := by
  simp only [successLines, List.filter_append]
  rw [filter_map_of_false _ OutLine.colItem _ (fun a => rfl),
    filter_map_of_true _ OutLine.previewRow _ (fun a => rfl),
    filter_map_of_false _ _ _ (fun a => rfl)]
  simp [isPreviewRowL]

/-- The dtype-item lines of a success report are exactly the column names
zipped with the inferred types, in column order. -/
lemma successLines_filter_dtypeItem (df : Frame) :
    (successLines df).filter isDtypeItemL =
      (df.cols.zip (frameDtypes df)).map (fun p => OutLine.dtypeItem p.1 p.2) := by
  simp only [successLines, List.filter_append]
  rw [filter_map_of_false _ OutLine.colItem _ (fun a => rfl),
    filter_map_of_false _ OutLine.previewRow _ (fun a => rfl),
    filter_map_of_true _ _ _ (fun a => rfl)]
  simp [isDtypeItemL]

/- Claim theorems. -/

/-- C3: the run fails (producing no report output, with a fatal outcome)
exactly when the directory listing itself fails, and then it carries the
listing's error: the listing is the only uncaught failure point. -/
theorem C3_fatal_listing (fs : FS) (e : String) :
    analyze_data fs = Except.error e ↔ fs.listing = Except.error e := by
  cases h : fs.listing with
  | error e2 => simp [analyze_data, h]
  | ok files => simp [analyze_data, h]

/-- C7: for an empty directory listing the run prints only the closing
blank/banner/completion lines, with zero error lines and zero per-file
header blocks, and completes normally. -/
theorem C7_empty_listing (fs : FS) (hl : fs.listing = Except.ok []) :
    analyze_data fs =
      Except.ok [OutLine.blank, OutLine.bannerLine, OutLine.complete] ∧
    (runOutput fs []).countP isErrL = 0 ∧
    (runOutput fs []).countP isFileHeaderL = 0 := by
  refine ⟨?_, ?_, ?_⟩
  · simp [analyze_data, hl, runOutput, reportLoop]
  · simp [runOutput, reportLoop, List.countP_cons, isErrL]
  · simp [runOutput, reportLoop, List.countP_cons, isFileHeaderL]

/-- Witness for C7 at the concrete empty-directory environment. -/
theorem C7_empty_listing_witness :
    analyze_data fsEmptyDir =
      Except.ok [OutLine.blank, OutLine.bannerLine, OutLine.complete] ∧
    (runOutput fsEmptyDir []).countP isErrL = 0 ∧
    (runOutput fsEmptyDir []).countP isFileHeaderL = 0 :=
  C7_empty_listing fsEmptyDir rfl

/-- C8: the run is deterministic in its inputs: two environments with the
same directory listing and the same per-path file contents produce the same
print events and byte-identical rendered output. -/
theorem C8_deterministic (fs1 fs2 : FS) (hl : fs1.listing = fs2.listing)
    (hf : ∀ p, fs1.file p = fs2.file p) :
    analyze_data fs1 = analyze_data fs2 ∧
    (analyze_data fs1).map renderOut = (analyze_data fs2).map renderOut := by
  have hfs : fs1 = fs2 := by
    cases fs1
    cases fs2
    simp only [FS.mk.injEq]
    exact ⟨hl, funext hf⟩
  rw [hfs]
  exact ⟨rfl, rfl⟩

/-- Witness for C8 at a concrete environment. -/
theorem C8_deterministic_witness :
    analyze_data fsEx = analyze_data fsEx ∧
    (analyze_data fsEx).map renderOut = (analyze_data fsEx).map renderOut :=
  C8_deterministic fsEx fsEx rfl (fun _ => rfl)

/-- C1: when the per-file processing of a listed entry fails with message
`e`, the run still finishes normally with the full output (exit code 0),
the entry's block contains exactly one error line — which carries `e` and
renders as the error text — and no size, column-item or preview-row lines,
and the entry's block still sits inside the whole run's output. -/
theorem C1_per_file_error_recovered (fs : FS) (files : List String) (k : Nat)
    (f e : String) (hl : fs.listing = Except.ok files) (hf : files[k]? = some f)
    (he : processOutcome fs (os_path_join data_dir f) = some e) :
    runSucceeds (analyze_data fs) = true ∧
    analyze_data fs = Except.ok (runOutput fs files) ∧
    (fileBlock fs k f).filter isErrL = [OutLine.errorLine e] ∧
    (fileBlock fs k f).countP isErrL = 1 ∧
    (fileBlock fs k f).countP isSizeL = 0 ∧
    (fileBlock fs k f).countP isColItemL = 0 ∧
    (fileBlock fs k f).countP isPreviewRowL = 0 ∧
    renderLine (OutLine.errorLine e) = "❌ Error: " ++ e ∧
    (∃ s t, runOutput fs files = s ++ fileBlock fs k f ++ t) := by
  have hb := tryBlock_of_processError fs (os_path_join data_dir f) e he
  refine ⟨by simp [analyze_data, hl, runSucceeds], by simp [analyze_data, hl],
    ?_, ?_, ?_, ?_, ?_, rfl, runOutput_decomp fs files k f hf⟩ <;>
    rcases hb with h | h <;>
      simp [fileBlock, h, List.filter_append, List.filter_cons,
        List.countP_append, List.countP_cons, isErrL, isSizeL, isColItemL,
        isPreviewRowL]

/-- Witness for C1 at the concrete environment, on its unopenable file. -/
theorem C1_per_file_error_recovered_witness :
    runSucceeds (analyze_data fsEx) = true ∧
    analyze_data fsEx =
      Except.ok (runOutput fsEx ["good.xlsx", "bad.xlsx", "empty.xlsx"]) ∧
    (fileBlock fsEx 1 "bad.xlsx").filter isErrL =
      [OutLine.errorLine "cannot open file"] ∧
    (fileBlock fsEx 1 "bad.xlsx").countP isErrL = 1 ∧
    (fileBlock fsEx 1 "bad.xlsx").countP isSizeL = 0 ∧
    (fileBlock fsEx 1 "bad.xlsx").countP isColItemL = 0 ∧
    (fileBlock fsEx 1 "bad.xlsx").countP isPreviewRowL = 0 ∧
    renderLine (OutLine.errorLine "cannot open file") =
      "❌ Error: " ++ "cannot open file" ∧
    (∃ s t, runOutput fsEx ["good.xlsx", "bad.xlsx", "empty.xlsx"] =
      s ++ fileBlock fsEx 1 "bad.xlsx" ++ t) :=
  C1_per_file_error_recovered fsEx ["good.xlsx", "bad.xlsx", "empty.xlsx"] 1
    "bad.xlsx" "cannot open file" rfl rfl (by decide)

/-- The frame `read_excel0` loads from the first sheet of `fsEx`'s good
workbook. -/
def frameEx : Frame :=
  { cols := ["id", "name"]
    rows := [["1", "a"], ["2", "b"], ["3", "c"], ["4", "d"], ["5", "e"],
             ["6", "f"]] }

/-- C2: for a successfully opened and loaded file, the reported row count is
the first sheet's data row count with the header row excluded, the reported
column count is the sheet's column count, and the size line printed carries
exactly the loaded frame's dimensions. -/
theorem C2_reported_size (fs : FS) (path : String) (wb : Workbook) (s : Sheet)
    (df : Frame) (hw : fs.file path = Except.ok wb) (hs : wb.head? = some s)
    (hd : read_excel0 wb = Except.ok df) :
    df.rows.length = s.cells.length - 1 ∧
    df.cols.length = (s.cells.headD []).length ∧
    OutLine.size df.rows.length df.cols.length ∈ tryBlock fs path := by
  cases wb with
  | nil => simp [read_excel0] at hd
  | cons s0 rest =>
    simp only [List.head?_cons, Option.some.injEq] at hs
    subst hs
    simp only [read_excel0, Except.ok.injEq] at hd
    subst hd
    refine ⟨?_, rfl, ?_⟩
    · simp [List.length_tail]
    · rw [tryBlock_of_ok fs path _ _ hw (by rfl)]
      simp [successLines]

/-- Witness for C2 at the concrete environment's good file. -/
theorem C2_reported_size_witness :
    frameEx.rows.length = sheetEx.cells.length - 1 ∧
    frameEx.cols.length = (sheetEx.cells.headD []).length ∧
    OutLine.size frameEx.rows.length frameEx.cols.length ∈
      tryBlock fsEx "data/good.xlsx" :=
  C2_reported_size fsEx "data/good.xlsx" [sheetEx] sheetEx frameEx
    rfl rfl rfl

/-- C4: for a successfully loaded file, the column-item lines printed are
exactly the frame's columns, one per line, in order, carrying the column
names unchanged — and those columns are the first sheet's header row. -/
theorem C4_column_list (fs : FS) (path : String) (wb : Workbook) (s : Sheet)
    (df : Frame) (hw : fs.file path = Except.ok wb) (hs : wb.head? = some s)
    (hd : read_excel0 wb = Except.ok df) :
    (tryBlock fs path).filter isColItemL = df.cols.map OutLine.colItem ∧
    ((tryBlock fs path).filter isColItemL).map colNameOf = df.cols ∧
    df.cols = s.cells.headD [] := by
  have ht := tryBlock_of_ok fs path wb df hw hd
  have h1 : (tryBlock fs path).filter isColItemL =
      df.cols.map OutLine.colItem := by
    rw [ht, List.filter_cons]
    simp [isColItemL, successLines_filter_colItem]
  have h2 : ((tryBlock fs path).filter isColItemL).map colNameOf = df.cols := by
    rw [h1]
    simp [colNameOf, List.map_map, Function.comp_def]
  have h3 : df.cols = s.cells.headD [] := by
    cases wb with
    | nil => simp [read_excel0] at hd
    | cons s0 rest =>
      simp only [List.head?_cons, Option.some.injEq] at hs
      subst hs
      simp only [read_excel0, Except.ok.injEq] at hd
      subst hd
      rfl
  exact ⟨h1, h2, h3⟩

/-- Witness for C4 at the concrete environment's good file. -/
theorem C4_column_list_witness :
    (tryBlock fsEx "data/good.xlsx").filter isColItemL =
      frameEx.cols.map OutLine.colItem ∧
    ((tryBlock fsEx "data/good.xlsx").filter isColItemL).map colNameOf =
      frameEx.cols ∧
    frameEx.cols = sheetEx.cells.headD [] :=
  C4_column_list fsEx "data/good.xlsx" [sheetEx] sheetEx frameEx
    rfl rfl rfl

/-- C5: for a successfully loaded file, the preview data rows printed are
exactly the first `min 5 rowCount` data rows of the frame, in original
order, and the frame's data rows are the first sheet's rows after the
header. -/
theorem C5_preview_rows (fs : FS) (path : String) (wb : Workbook) (s : Sheet)
    (df : Frame) (hw : fs.file path = Except.ok wb) (hs : wb.head? = some s)
    (hd : read_excel0 wb = Except.ok df) :
    ((tryBlock fs path).filter isPreviewRowL).map previewCellsOf =
      df.rows.take 5 ∧
    (tryBlock fs path).countP isPreviewRowL = min 5 df.rows.length ∧
    df.rows = s.cells.tail := by
  have ht := tryBlock_of_ok fs path wb df hw hd
  have hfil : (tryBlock fs path).filter isPreviewRowL =
      (df.rows.take 5).map OutLine.previewRow := by
    rw [ht, List.filter_cons]
    simp [isPreviewRowL, successLines_filter_previewRow]
  refine ⟨?_, ?_, ?_⟩
  · rw [hfil]
    simp [previewCellsOf, List.map_map, Function.comp_def]
  · rw [List.countP_eq_length_filter, hfil]
    simp [List.length_take]
  · cases wb with
    | nil => simp [read_excel0] at hd
    | cons s0 rest =>
      simp only [List.head?_cons, Option.some.injEq] at hs
      subst hs
      simp only [read_excel0, Except.ok.injEq] at hd
      subst hd
      rfl

/-- Witness for C5 at the concrete environment's good file. -/
theorem C5_preview_rows_witness :
    ((tryBlock fsEx "data/good.xlsx").filter isPreviewRowL).map previewCellsOf =
      frameEx.rows.take 5 ∧
    (tryBlock fsEx "data/good.xlsx").countP isPreviewRowL =
      min 5 frameEx.rows.length ∧
    frameEx.rows = sheetEx.cells.tail :=
  C5_preview_rows fsEx "data/good.xlsx" [sheetEx] sheetEx frameEx
    rfl rfl rfl

/-- C6: the entry at 0-based position `k` of the listing gets a block that
starts with the blank line, a banner, the `FILE k+1: name` header and
another banner, before any attempt to open the file, and that block sits
inside the whole run's output. -/
theorem C6_header_block (fs : FS) (files : List String) (k : Nat) (f : String)
    (_hl : fs.listing = Except.ok files) (hf : files[k]? = some f) :
    fileBlock fs k f =
      [OutLine.blank, OutLine.bannerLine, OutLine.fileHeader (k + 1) f,
        OutLine.bannerLine] ++ tryBlock fs (os_path_join data_dir f) ∧
    (∃ s t, runOutput fs files =
      s ++ ([OutLine.blank, OutLine.bannerLine, OutLine.fileHeader (k + 1) f,
        OutLine.bannerLine] ++ tryBlock fs (os_path_join data_dir f)) ++ t) := by
  refine ⟨rfl, ?_⟩
  obtain ⟨s, t, hst⟩ := runOutput_decomp fs files k f hf
  exact ⟨s, t, by rw [hst]; rfl⟩

/-- Witness for C6 at the concrete environment's first entry. -/
theorem C6_header_block_witness :
    fileBlock fsEx 0 "good.xlsx" =
      [OutLine.blank, OutLine.bannerLine, OutLine.fileHeader (0 + 1) "good.xlsx",
        OutLine.bannerLine] ++ tryBlock fsEx (os_path_join data_dir "good.xlsx") ∧
    (∃ s t, runOutput fsEx ["good.xlsx", "bad.xlsx", "empty.xlsx"] =
      s ++ ([OutLine.blank, OutLine.bannerLine,
        OutLine.fileHeader (0 + 1) "good.xlsx", OutLine.bannerLine] ++
        tryBlock fsEx (os_path_join data_dir "good.xlsx")) ++ t) :=
  C6_header_block fsEx ["good.xlsx", "bad.xlsx", "empty.xlsx"] 0 "good.xlsx"
    rfl rfl

/-- C9: the run prints exactly one `FILE n: name` header line per listed
entry; in particular the entry at position `k` gets its header line and, when
it cannot be processed, an error line inside its own block rather than being
skipped, the block still being part of the run's output. -/
theorem C9_no_entry_skipped (fs : FS) (files : List String) (k : Nat)
    (f e : String) (_hl : fs.listing = Except.ok files) (hf : files[k]? = some f)
    (he : processOutcome fs (os_path_join data_dir f) = some e) :
    (runOutput fs files).countP isFileHeaderL = files.length ∧
    OutLine.fileHeader (k + 1) f ∈ runOutput fs files ∧
    OutLine.errorLine e ∈ fileBlock fs k f ∧
    (∃ s t, runOutput fs files = s ++ fileBlock fs k f ++ t) := by
  have hdec := runOutput_decomp fs files k f hf
  refine ⟨?_, ?_, ?_, hdec⟩
  · simp [runOutput, List.countP_append, reportLoop_countP_fileHeader,
      List.countP_cons, isFileHeaderL]
  · obtain ⟨s, t, hst⟩ := hdec
    rw [hst]
    simp [fileBlock]
  · rcases tryBlock_of_processError fs _ e he with h | h <;> simp [fileBlock, h]

/-- Witness for C9 at the concrete environment's zero-sheet workbook. -/
theorem C9_no_entry_skipped_witness :
    (runOutput fsEx ["good.xlsx", "bad.xlsx", "empty.xlsx"]).countP
      isFileHeaderL = (["good.xlsx", "bad.xlsx", "empty.xlsx"] : List String).length ∧
    OutLine.fileHeader (2 + 1) "empty.xlsx" ∈
      runOutput fsEx ["good.xlsx", "bad.xlsx", "empty.xlsx"] ∧
    OutLine.errorLine sheet0ErrMsg ∈ fileBlock fsEx 2 "empty.xlsx" ∧
    (∃ s t, runOutput fsEx ["good.xlsx", "bad.xlsx", "empty.xlsx"] =
      s ++ fileBlock fsEx 2 "empty.xlsx" ++ t) :=
  C9_no_entry_skipped fsEx ["good.xlsx", "bad.xlsx", "empty.xlsx"] 2
    "empty.xlsx" sheet0ErrMsg rfl rfl (by decide)

/-- C10: for a successfully loaded file the whole success block is derived
from the one loaded frame: the preview's column row equals the listed
columns, and the dtype list has exactly one entry per listed column, in the
same order. -/
theorem C10_single_frame_consistency (fs : FS) (path : String) (wb : Workbook)
    (df : Frame) (hw : fs.file path = Except.ok wb)
    (hd : read_excel0 wb = Except.ok df) :
    tryBlock fs path = OutLine.sheets (wb.map Sheet.name) :: successLines df ∧
    ((successLines df).filter isColItemL).map colNameOf = df.cols ∧
    OutLine.previewCols df.cols ∈ successLines df ∧
    ((successLines df).filter isDtypeItemL).map dtypeColOf = df.cols ∧
    (successLines df).countP isDtypeItemL = df.cols.length ∧
    ((successLines df).filter isPreviewRowL).map previewCellsOf =
      df.rows.take 5 := by
  refine ⟨tryBlock_of_ok fs path wb df hw hd, ?_, ?_, ?_, ?_, ?_⟩
  · rw [successLines_filter_colItem]
    simp [colNameOf, List.map_map, Function.comp_def]
  · simp [successLines]
  · rw [successLines_filter_dtypeItem]
    simp only [List.map_map, Function.comp_def]
    have : (fun p : String × String => dtypeColOf (OutLine.dtypeItem p.1 p.2)) =
        Prod.fst := by
      funext p
      rfl
    rw [this]
    exact List.map_fst_zip _ _ (by rw [frameDtypes_length])
  · rw [List.countP_eq_length_filter, successLines_filter_dtypeItem]
    simp [List.length_zip, frameDtypes_length]
  · rw [successLines_filter_previewRow]
    simp [previewCellsOf, List.map_map, Function.comp_def]

/-- Witness for C10 at the concrete environment's good file. -/
theorem C10_single_frame_consistency_witness :
    tryBlock fsEx "data/good.xlsx" =
      OutLine.sheets (([sheetEx] : Workbook).map Sheet.name) ::
        successLines frameEx ∧
    ((successLines frameEx).filter isColItemL).map colNameOf = frameEx.cols ∧
    OutLine.previewCols frameEx.cols ∈ successLines frameEx ∧
    ((successLines frameEx).filter isDtypeItemL).map dtypeColOf =
      frameEx.cols ∧
    (successLines frameEx).countP isDtypeItemL = frameEx.cols.length ∧
    ((successLines frameEx).filter isPreviewRowL).map previewCellsOf =
      frameEx.rows.take 5 :=
  C10_single_frame_consistency fsEx "data/good.xlsx" [sheetEx] frameEx
    rfl rfl

end AnalyzeData
